import Mathlib

/-!
Verification development for the `special-engine` portfolio repository
(`Portfolio/info/views.py`, `Portfolio/info/models.py`,
`Portfolio/Portfolio/views.py`).

The Python views are shallowly embedded as pure Lean functions over an
explicit database value.  Machine-irrelevant context entries (SEO strings,
structured data, logging side effects, template rendering) are not modelled;
the modelled outputs are exactly the data-bearing parts the specification's
claims talk about: the filtered/paginated project rows, the page-resolution
outcome, the detail-view outcome (not-found / permanent redirect / render),
the contact-form error list and the persisted `ContactMessage` rows.

Library semantics the source relies on are embedded from their documented
behaviour: Django's `QuerySet` filtering (including the documented duplicate
rows produced by filters that span the many-to-many `tech_stack` relation
when `distinct()` is not applied), `Paginator.get_page` (which clamps
non-integer page numbers to 1 and out-of-range page numbers to the last
page instead of raising `EmptyPage`), `django.utils.text.slugify`, Python's
`int(str)` conversion and `str.strip`, and Python's `re` matching of the
contact form's e-mail pattern.  All text functions are modelled at the level
of Unicode code points (`Char`), with ASCII case folding as performed by
the SQLite `LIKE`/`lower` semantics the ORM lookups compile to.
-/

/-- Python's `str.strip()` whitespace class restricted to ASCII
(space, tab, newline, carriage return, vertical tab, form feed). -/
def isPySpace (c : Char) : Bool :=
  c = ' ' || c = '\t' || c = '\n' || c = '\r' || c = '\x0b' || c = '\x0c'

/-- `str.strip()` on a code-point list: drop leading and trailing whitespace. -/
def pyStrip (cs : List Char) : List Char :=
  ((cs.dropWhile isPySpace).reverse.dropWhile isPySpace).reverse

/-- Value of a non-empty all-digit string, `none` otherwise. -/
def digitsVal (cs : List Char) : Option Nat :=
  if cs ≠ [] ∧ cs.all Char.isDigit then
    some (cs.foldl (fun a c => a * 10 + (c.toNat - 48)) 0)
  else none

/-- Python's `int(s)` for a decimal string: strips surrounding whitespace,
allows one optional sign, then requires at least one digit; raises
`ValueError` (here: `none`) otherwise.  (Pythons's underscore digit
grouping is not modelled; no claim exercises it.) -/
def pyInt (s : String) : Option Int :=
  match pyStrip s.data with
  | '-' :: rest => (digitsVal rest).map (fun n => -(n : Int))
  | '+' :: rest => (digitsVal rest).map (fun n => (n : Int))
  | cs => (digitsVal cs).map (fun n => (n : Int))

/-- ASCII lower-casing of a string, as a code-point list. -/
def lowerChars (s : String) : List Char := s.data.map Char.toLower

/-- Django's `icontains` lookup: `needle` is a case-insensitive substring
of `hay` (`LOWER(hay) LIKE '%' || LOWER(needle) || '%'` with escaping). -/
def icontains (hay needle : String) : Bool :=
  (lowerChars hay).tails.any (fun t => (lowerChars needle).isPrefixOf t)

/-! ## Data model (`info/models.py`) -/

/-- A `Project` row together with the names of its many-to-many
`tech_stack` tags.  `thumbnail`, the two link fields, `is_featured`,
`updated_at` and the `ProjectImage` rows are omitted: no claim reads them.
`created_at` and `id` are modelled as integers (ordering keys only). -/
structure Project where
  id : Int
  title : String
  short_description : String
  description : String
  tags : List String
  created_at : Int
deriving DecidableEq, Repr

/-- The project-side database: the `Project` rows and the names of all
`TechTag` rows (a project's `tags` are drawn from these in a well-formed
database, but no claim needs that invariant). -/
structure InfoDb where
  projects : List Project
  tags : List String
deriving DecidableEq, Repr

/-- A stored `ContactMessage` row (`info/models.py`).  `created_at` is an
integer timestamp in seconds; `is_read` and `replied` default to `false`
at creation. -/
structure StoredMessage where
  name : String
  email : String
  subject : String
  message : String
  createdAt : Int
  is_read : Bool
  replied : Bool
deriving DecidableEq, Repr

/-! ## The project listing query (`projects_view`, info/views.py 67–99) -/

/-- The search predicate of `projects_view` (lines 70–76):
`Q(title__icontains) | Q(short_description__icontains) |
Q(description__icontains) | Q(tech_stack__name__icontains)`. -/
def searchMatches (s : String) (p : Project) : Bool :=
  icontains p.title s || icontains p.short_description s ||
  icontains p.description s || p.tags.any (fun t => icontains t s)

/-- A project carries some tag whose name case-insensitively contains
`t` (`tech_stack__name__icontains=t`). -/
def techMatches (t : String) (p : Project) : Bool :=
  p.tags.any (fun tag => icontains tag t)

/-- `order_by('-created_at', '-id')`: `p` sorts no later than `q`. -/
def rowLe (p q : Project) : Bool :=
  if p.created_at = q.created_at then decide (q.id ≤ p.id)
  else decide (q.created_at < p.created_at)

/-- Insertion step of an ordering; structurally recursive so that concrete
queries evaluate inside the kernel. -/
def insertRow (le : Project → Project → Bool) (p : Project) :
    List Project → List Project
  | [] => [p]
  | q :: rest => if le p q then p :: q :: rest else q :: insertRow le p rest

/-- Insertion sort of query rows by the Boolean ordering `le`. -/
def sortRowsBy (le : Project → Project → Bool) (l : List Project) : List Project :=
  l.foldr (insertRow le) []

/-- The `ORDER BY created_at DESC, id DESC` applied to the filtered rows. -/
def sortRows (l : List Project) : List Project :=
  sortRowsBy rowLe l

/-- The result rows of the `projects_view` query pipeline (lines 67–85),
one list element per SQL result row:

* `search` non-empty (line 70): the four-field `OR` filter with
  `.distinct()`, i.e. one row per matching project.  The `distinct` flag
  set here persists through the later `tech` filter, so the combined
  query also yields one row per matching project.
* `tech` non-empty (line 78): if some `TechTag` name case-insensitively
  contains `tech` (line 79), restrict by `tech_stack__name__icontains`;
  this filter spans the many-to-many relation, so without a `distinct()`
  in effect it produces one row per (project, matching tag) pair — the
  documented Django duplicate-row behaviour.  If no tag matches, the
  filter is skipped (line 82 only prints a warning).
* finally `order_by('-created_at', '-id')` (line 85). -/
def filteredRows (db : InfoDb) (search tech : String) : List Project :=
  let base := db.projects
  let afterSearch := if search ≠ "" then base.filter (searchMatches search) else base
  let distinctFlag := search ≠ ""
  let afterTech :=
    if tech ≠ "" then
      if db.tags.any (fun tag => icontains tag tech) then
        if distinctFlag then
          afterSearch.filter (techMatches tech)
        else
          afterSearch.flatMap (fun p =>
            (p.tags.filter (fun tag => icontains tag tech)).map (fun _ => p))
      else afterSearch
    else afterSearch
  sortRows afterTech

/-- `Paginator(qs, 6).num_pages`: `ceil(max(1, count) / 6)` (Django counts
an empty, `allow_empty_first_page` queryset as one page). -/
def numPages (count : Nat) : Nat := (max 1 count + 5) / 6

/-- `Paginator.get_page(n)` for an already-`int` argument: Django's
`validate_number` raises `EmptyPage` for `n < 1` and for `n > num_pages`,
and `get_page` catches it and returns the last page in both cases. -/
def getPage (count : Nat) (n : Int) : Nat :=
  if n < 1 then numPages count
  else if (numPages count : Int) < n then numPages count
  else n.toNat

/-- Outcome of page resolution in `projects_view` (lines 93–99).
`notFound` is the `except EmptyPage: raise Http404` branch; because
`Paginator.get_page` clamps instead of raising, no right-hand side below
produces it. -/
inductive PageOutcome where
  | page (n : Nat)
  | notFound
deriving DecidableEq, Repr

/-- Lines 93–99 of `projects_view`: `int(page_number)` then
`paginator.get_page`; `ValueError`/`TypeError` falls back to
`get_page(1)`; `EmptyPage` would give `Http404` but is never raised. -/
def resolvePageOutcome (count : Nat) (pageStr : String) : PageOutcome :=
  match pyInt pageStr with
  | none => .page (getPage count 1)
  | some n => .page (getPage count n)

/-- The data-bearing context of a rendered `projects_view` page:
the page's rows, `total_projects`, `current_page`, `total_pages`. -/
structure ProjectsResult where
  pageItems : List Project
  totalProjects : Nat
  currentPage : Nat
  totalPages : Nat
deriving DecidableEq, Repr

/-- Overall outcome of `projects_view` for a request. -/
inductive ProjectsOutcome where
  | ok (r : ProjectsResult)
  | notFound
deriving DecidableEq, Repr

/-- `projects_view` (info/views.py 40–152) on sanitized inputs: `search`
and `tech` are the values after `strip()`/`strip_tags`/truncation (lines
55–64; an empty string means "no filter"), `pageStr` the raw `page`
parameter.  Returns the rendered page's data or the (unreachable)
`Http404` of the dead `except EmptyPage` branch. -/
def projects_view (db : InfoDb) (search tech pageStr : String) : ProjectsOutcome :=
  let rows := filteredRows db search tech
  let count := rows.length
  match resolvePageOutcome count pageStr with
  | .notFound => .notFound
  | .page pg => .ok ⟨(rows.drop ((pg - 1) * 6)).take 6, count, pg, numPages count⟩

/-! ## The project detail resolver (`project_detail_view`, info/views.py 173–257) -/

/-- Python's ASCII `\w` class: letters, digits, underscore. -/
def isWordChar (c : Char) : Bool := c.isAlpha || c.isDigit || c = '_'

/-- Collapse consecutive `'-'` characters into one (the effect of
`re.sub(r"[-\s]+", "-", ...)` after whitespace has been mapped to `'-'`). -/
def squeezeDashes : List Char → List Char
  | [] => []
  | [c] => [c]
  | a :: b :: rest =>
    if a = '-' && b = '-' then squeezeDashes (b :: rest)
    else a :: squeezeDashes (b :: rest)

/-- `'-'` or `'_'`: the characters removed from both ends by
`.strip("-_")` in `slugify`. -/
def isDashOrUnderscore (c : Char) : Bool := c = '-' || c = '_'

/-- `django.utils.text.slugify` (allow_unicode=False): NFKD-normalize and
drop non-ASCII (for ASCII input this is the identity; transliteration of
non-ASCII letters is approximated by removal), lowercase, delete every
character outside `[\w\s-]`, replace runs of `[-\s]+` by a single `'-'`,
and strip leading/trailing `'-'`/`'_'`. -/
def slugify (s : String) : String :=
  let ascii := s.data.filter (fun c => c.toNat < 128)
  let lowered := ascii.map Char.toLower
  let kept := lowered.filter (fun c => isWordChar c || isPySpace c || c = '-')
  let dashed := kept.map (fun c => if isPySpace c || c = '-' then '-' else c)
  let squeezed := squeezeDashes dashed
  ⟨(squeezed.dropWhile isDashOrUnderscore).reverse.dropWhile isDashOrUnderscore |>.reverse⟩

/-- `q` is ordered before-or-equal under the default `Meta.ordering =
["-created_at"]` of `Project` (no id tiebreak; ties keep list order). -/
def createdLe (p q : Project) : Bool := decide (q.created_at ≤ p.created_at)

/-- The related-projects query of `project_detail_view` (lines 205–208):
`Project.objects.filter(tech_stack__in=project.tech_stack.all())
.exclude(id=project.id).distinct()[:4]`, ordered by the model's default
`-created_at`.  In the row model the many-to-many join followed by
`distinct()` yields one row per qualifying project. -/
def relatedProjects (db : InfoDb) (p : Project) : List Project :=
  (sortRowsBy createdLe
    (db.projects.filter (fun q =>
      q.tags.any (fun t => p.tags.contains t) && q.id != p.id))).take 4

/-- Outcome of `project_detail_view`: `Http404`, a permanent redirect to
`/projects/<id>/<canonical slug>/`, or a rendered detail page carrying the
project and its related-projects list. -/
inductive DetailOutcome where
  | notFound
  | redirect (projectId : Int) (slug : String)
  | render (p : Project) (related : List Project)
deriving DecidableEq, Repr

/-- `project_detail_view` (info/views.py 173–257).  `get_object_or_404`
by primary key; `correct_slug = slugify(project.title)`; a supplied slug
that is non-empty and differs from the canonical one, or a missing/empty
slug (`if not slug`), gives `HttpResponsePermanentRedirect` to the
canonical URL; otherwise the detail page renders.  The trailing
`except Exception` re-raises any failure as `Http404`, which is how a
missing project id surfaces. -/
def project_detail_view (db : InfoDb) (pid : Int) (slug : Option String) :
    DetailOutcome :=
  match db.projects.find? (fun p => p.id == pid) with
  | none => .notFound
  | some p =>
    let correct := slugify p.title
    match slug with
    | some s =>
      if s != "" && s != correct then .redirect pid correct
      else if s = "" then .redirect pid correct
      else .render p (relatedProjects db p)
    | none => .redirect pid correct

/-! ## The contact form (`contact_view`, info/views.py 366–469) -/

/-- Error string at line 417. -/
def nameMinErr : String := "Name must be at least 2 characters long."

/-- Error string at line 419. -/
def nameMaxErr : String := "Name must be less than 100 characters."

/-- Error string at line 424. -/
def emailErr : String := "Please enter a valid email address."

/-- Error string at line 427. -/
def msgMinErr : String := "Message must be at least 10 characters long."

/-- Error string at line 429. -/
def msgMaxErr : String := "Message must be less than 2000 characters."

/-- Error string at line 432 (and Portfolio/views.py line 492). -/
def subjMaxErr : String := "Subject must be less than 200 characters."

/-- Error string at line 441 (and Portfolio/views.py line 504). -/
def rateErr : String := "Too many messages sent. Please wait before sending another message."

/-- Error string at Portfolio/views.py line 490 (enhanced variant only). -/
def subjMinErr : String := "Subject must be at least 5 characters long."

/-- Character class `[a-zA-Z0-9._%+-]` of the contact e-mail regex. -/
def localChar (c : Char) : Bool :=
  c.isAlpha || c.isDigit || c = '.' || c = '_' || c = '%' || c = '+' || c = '-'

/-- Character class `[a-zA-Z0-9.-]` of the contact e-mail regex. -/
def domainChar (c : Char) : Bool :=
  c.isAlpha || c.isDigit || c = '.' || c = '-'

/-- Split a code-point list on a separator character (the single-character
case of `str.split`); `n` separators yield `n+1` (possibly empty) parts. -/
def splitOnChar (sep : Char) : List Char → List (List Char)
  | [] => [[]]
  | c :: rest =>
    match splitOnChar sep rest with
    | [] => [[]]
    | seg :: segs => if c = sep then [] :: seg :: segs else (c :: seg) :: segs

/-- Match of `[a-zA-Z0-9.-]+\.[a-zA-Z]{2,}` against the whole part after
`'@'`.  Because the trailing `[a-zA-Z]{2,}` cannot contain `'.'`, the
separating dot of any successful decomposition is the last dot, so the
match holds iff the segment after the last dot is all-alphabetic of
length ≥ 2 and the non-empty remainder consists of class characters. -/
def domainTailMatch (dom : List Char) : Bool :=
  let segs := splitOnChar '.' dom
  let tld := segs.getLastD []
  let pre := List.intercalate ['.'] segs.dropLast
  decide (2 ≤ segs.length) && decide (2 ≤ tld.length) && tld.all Char.isAlpha &&
  decide (pre ≠ []) && pre.all domainChar

/-- Match of the full pattern `^[a-zA-Z0-9._%+-]+@[a-zA-Z0-9.-]+\.[a-zA-Z]{2,}$`
against a whole string: neither character class contains `'@'`, so exactly
one `'@'` must occur, with a non-empty local part of class characters
before it and a matching domain after it. -/
def emailMatchChars (cs : List Char) : Bool :=
  match splitOnChar '@' cs with
  | [loc, dom] => decide (loc ≠ []) && loc.all localChar && domainTailMatch dom
  | _ => false

/-- `re.match` of the e-mail pattern (info/views.py line 422,
Portfolio/views.py line 485): anchored at both ends; Python's `$` also
matches just before one trailing newline. -/
def emailRegexMatch (s : String) : Bool :=
  emailMatchChars s.data ||
  (s.data.getLastD 'x' == '\n' && emailMatchChars s.data.dropLast)

/-- Rate-limit count of `contact_view` (lines 435–438): stored messages
with this exact e-mail whose `created_at` lies within the trailing hour
(`created_at >= now - 1 hour`, timestamps in seconds). -/
def recentCount (db : List StoredMessage) (now : Int) (email : String) : Nat :=
  (db.filter (fun m => m.email == email && decide (now - 3600 ≤ m.createdAt))).length

/-- The validation-error list of `contact_view` (lines 414–441), built in
source order — name, e-mail, message, subject, rate limit — with no
short-circuit between rules.  Inputs are the sanitized field values of
lines 408–411 (`strip_tags(... .strip())` for name/subject/message,
`.strip().lower()` for e-mail); Python `len` counts code points, as
`String.length` does. -/
def contactErrors (db : List StoredMessage) (now : Int)
    (name email subject message : String) : List String :=
  (if name = "" ∨ name.length < 2 then [nameMinErr]
   else if 100 < name.length then [nameMaxErr] else [])
  ++ (if email = "" ∨ ¬ emailRegexMatch email then [emailErr] else [])
  ++ (if message = "" ∨ message.length < 10 then [msgMinErr]
      else if 2000 < message.length then [msgMaxErr] else [])
  ++ (if subject ≠ "" ∧ 200 < subject.length then [subjMaxErr] else [])
  ++ (if 3 ≤ recentCount db now email then [rateErr] else [])

/-- The row created at lines 449–454: `subject or f'Contact from {name}'`
falls back when the sanitized subject is empty; `is_read`/`replied`
default to `false`; `created_at` is assigned the current time. -/
def mkContactMessage (name email subject message : String) (now : Int) :
    StoredMessage :=
  ⟨name, email, if subject = "" then "Contact from " ++ name else subject,
   message, now, false, false⟩

/-- The POST branch of `contact_view` (lines 404–460) as a transformer of
the stored-message table: either the non-empty error list (nothing
persisted) or the table with the one new row appended. -/
def contactSubmit (db : List StoredMessage) (now : Int)
    (name email subject message : String) :
    Except (List String) (List StoredMessage) :=
  let errs := contactErrors db now name email subject message
  if errs = [] then .ok (db ++ [mkContactMessage name email subject message now])
  else .error errs

/-- What the caller of `contact_view` observes: a success flash message
and redirect, or the list of validation error messages. -/
inductive ContactOutcome where
  | success
  | validationErrors (errs : List String)
deriving DecidableEq, Repr

/-- `contact_view`'s POST handling paired with the resulting table:
success re-renders via redirect after persisting, failure re-renders the
form leaving the table untouched.  This flow performs no notification
dispatch at all (no e-mail send exists in `contact_view`). -/
def contact_view_post (db : List StoredMessage) (now : Int)
    (name email subject message : String) :
    ContactOutcome × List StoredMessage :=
  match contactSubmit db now name email subject message with
  | .ok db' => (.success, db')
  | .error errs => (.validationErrors errs, db)

/-! ## The enhanced contact handler (`ContactView.post`, Portfolio/views.py 464–556) -/

/-- Outcome reported to the user by `ContactView.post`: validation
errors, the success flash, or the send-failure flash (`'Sorry, there was
an error sending your message. ...'`). -/
inductive PostOutcome where
  | validationErrors (errs : List String)
  | success
  | sendFailure
deriving DecidableEq, Repr

/-- Observable result of `ContactView.post`: the reported outcome, the
stored `ContactMessage` table after the request, and the per-address
cache counter after the request. -/
structure PostResult where
  outcome : PostOutcome
  stored : List StoredMessage
  cacheCount : Nat
deriving DecidableEq, Repr

/-- Validation-error list of `ContactView.post` (lines 477–504), in source
order — name, e-mail, subject (required, length in [5,200]), message,
cache-based rate limit — with no short-circuit between rules. -/
def contactPostErrors (cacheCount : Nat)
    (name email subject message : String) : List String :=
  (if name = "" ∨ name.length < 2 then [nameMinErr]
   else if 100 < name.length then [nameMaxErr] else [])
  ++ (if email = "" ∨ ¬ emailRegexMatch email then [emailErr] else [])
  ++ (if subject = "" ∨ subject.length < 5 then [subjMinErr]
      else if 200 < subject.length then [subjMaxErr] else [])
  ++ (if message = "" ∨ message.length < 10 then [msgMinErr]
      else if 2000 < message.length then [msgMaxErr] else [])
  ++ (if 3 ≤ cacheCount then [rateErr] else [])

/-- `ContactView.post` (Portfolio/views.py 464–556).  On validation
failure the errors are flashed.  Otherwise the handler only dispatches
the notification e-mail: on success it increments the cache counter and
flashes success, on a send exception it flashes the send-failure message.
No path creates a `ContactMessage` row — the stored table is returned
unchanged in every case. -/
def contactViewPost (db : List StoredMessage) (cacheCount : Nat)
    (name email subject message : String) (emailSendOk : Bool) : PostResult :=
  let errs := contactPostErrors cacheCount name email subject message
  if errs ≠ [] then ⟨.validationErrors errs, db, cacheCount⟩
  else if emailSendOk then ⟨.success, db, cacheCount + 1⟩
  else ⟨.sendFailure, db, cacheCount⟩

/-! ## Supporting lemmas -/

/-- Inserting a row permutes consing it. -/
theorem insertRow_perm (le : Project → Project → Bool) (p : Project) :
    ∀ l : List Project, (insertRow le p l).Perm (p :: l)
  | [] => by simp [insertRow]
  | q :: rest => by
    rw [insertRow]
    by_cases h : le p q = true
    · simp [h]
    · simp only [h, if_false]
      exact ((insertRow_perm le p rest).cons q).trans (List.Perm.swap p q rest)

/-- The insertion sort of query rows is a permutation of its input. -/
theorem sortRowsBy_perm (le : Project → Project → Bool) :
    ∀ l : List Project, (sortRowsBy le l).Perm l
  | [] => by simp [sortRowsBy]
  | p :: rest => by
    rw [sortRowsBy, List.foldr_cons]
    exact (insertRow_perm le p _).trans ((sortRowsBy_perm le rest).cons p)

/-- `ORDER BY` is a permutation of the filtered rows. -/
theorem sortRows_perm (l : List Project) : (sortRows l).Perm l :=
  sortRowsBy_perm rowLe l

/-- Membership in a one-error conditional block. -/
theorem mem_condList {α : Type} (a x : α) (c : Prop) [Decidable c] :
    a ∈ (if c then [x] else []) ↔ c ∧ a = x := by
  by_cases hc : c <;> simp [hc]

/-- Membership in a two-error conditional block (`if ... elif ...`). -/
theorem mem_condList₂ {α : Type} (a x y : α) (c d : Prop)
    [Decidable c] [Decidable d] :
    a ∈ (if c then [x] else if d then [y] else []) ↔
      (c ∧ a = x) ∨ (¬ c ∧ d ∧ a = y) := by
  by_cases hc : c <;> by_cases hd : d <;> simp [hc, hd]

/-- With only a search filter the query rows are the `ORDER BY` of the
distinct search matches. -/
theorem filteredRows_search_only (db : InfoDb) (s : String) (hs : s ≠ "") :
    filteredRows db s "" = sortRows (db.projects.filter (searchMatches s)) := by
  simp [filteredRows, hs]

/-! ## Concrete databases used by witnesses and counterexamples -/

/-- A sample project for witness databases. -/
def wProj : Project := ⟨1, "Django App", "short text", "long text", ["Python"], 10⟩

/-- A second sample project without the `Python` tag. -/
def wProj2 : Project := ⟨2, "Notes", "plain", "plain", ["Rust"], 20⟩

/-- A one-tag, two-project witness database. -/
def wDb : InfoDb := ⟨[wProj, wProj2], ["Python", "Rust"]⟩

/-! ## Claims -/

/-- C1: in the project listing, for every project and non-empty sanitized
search string (and no tech filter), the project appears in the result set
iff the search string is a case-insensitive substring of its title, short
description, description, or some tag name — and a matching project
appears exactly once even when several of its tags match. -/
theorem search_membership_exactly_once (db : InfoDb) (p : Project) (s : String)
    (hnd : db.projects.Nodup) (hs : s ≠ "") :
    (p ∈ filteredRows db s "" ↔ p ∈ db.projects ∧
      (icontains p.title s || icontains p.short_description s ||
       icontains p.description s || p.tags.any (fun t => icontains t s)) = true)
    ∧ (p ∈ db.projects → searchMatches s p = true →
        (filteredRows db s "").count p = 1) := by
  have hperm : (filteredRows db s "").Perm (db.projects.filter (searchMatches s)) := by
    rw [filteredRows_search_only db s hs]
    exact sortRows_perm _
  constructor
  · rw [hperm.mem_iff, List.mem_filter, searchMatches]
  · intro hp hm
    rw [hperm.count_eq]
    exact List.count_eq_one_of_mem (hnd.filter _) (List.mem_filter.mpr ⟨hp, hm⟩)

/-- Witness for C1 on a one-project database. -/
theorem search_membership_exactly_once_witness :
    wProj ∈ filteredRows wDb "django" "" ∧
    (filteredRows wDb "django" "").count wProj = 1 := by
  have h := search_membership_exactly_once wDb wProj "django" (by decide) (by decide)
  exact ⟨h.1.mpr (by decide), h.2 (by decide) (by decide)⟩

/-- C5: a sanitized tech filter matching no existing tag name is a no-op
(the result set equals the unfiltered-by-tech result set); when some tag
name contains it, every returned project carries a matching tag, ANDed
with the search filter. -/
theorem tech_filter_fallthrough (db : InfoDb) (s t : String) (ht : t ≠ "") :
    ((∀ tag ∈ db.tags, icontains tag t = false) →
      filteredRows db s t = filteredRows db s "")
    ∧ (db.tags.any (fun tag => icontains tag t) = true →
        ∀ p ∈ filteredRows db s t,
          techMatches t p = true ∧ (s ≠ "" → searchMatches s p = true) ∧
          p ∈ db.projects) := by
  constructor
  · intro hnone
    have hfalse : db.tags.any (fun tag => icontains tag t) = false := by
      rw [List.any_eq_false]
      intro tag htag
      simp [hnone tag htag]
    simp [filteredRows, ht, hfalse]
  · intro hsome p hp
    by_cases hs : s = ""
    · subst hs
      have hrows : filteredRows db "" t =
          sortRows (db.projects.flatMap (fun q =>
            (q.tags.filter (fun tag => icontains tag t)).map (fun _ => q))) := by
        simp [filteredRows, ht, hsome]
      rw [hrows] at hp
      have hp' := (sortRows_perm _).mem_iff.mp hp
      obtain ⟨q, hq, hpq⟩ := List.mem_flatMap.mp hp'
      obtain ⟨tag, htag, rfl⟩ := List.mem_map.mp hpq
      have htag' := List.mem_filter.mp htag
      refine ⟨?_, by simp, hq⟩
      rw [techMatches, List.any_eq_true]
      exact ⟨tag, htag'.1, htag'.2⟩
    · have hrows : filteredRows db s t =
          sortRows ((db.projects.filter (searchMatches s)).filter (techMatches t)) := by
        simp [filteredRows, ht, hsome, hs]
      rw [hrows] at hp
      have hp' := (sortRows_perm _).mem_iff.mp hp
      have h2 := List.mem_filter.mp hp'
      have h1 := List.mem_filter.mp h2.1
      exact ⟨h2.2, fun _ => h1.2, h1.1⟩

/-- Witness for C5: tech `"zz"` matches no tag of the database, so the
result set equals the tech-unfiltered one; tech `"py"` matches a tag and
only tag-carrying projects are returned. -/
theorem tech_filter_fallthrough_witness :
    filteredRows wDb "" "zz" = filteredRows wDb "" "" ∧
    ∀ p ∈ filteredRows wDb "" "py", techMatches "py" p = true := by
  have h := tech_filter_fallthrough wDb "" "zz" (by decide)
  have h' := tech_filter_fallthrough wDb "" "py" (by decide)
  exact ⟨h.1 (by decide), fun p hp => (h'.2 (by decide) p hp).1⟩

/-- A content-free project used to populate pagination databases. -/
def pageProj (i : Int) : Project := ⟨i, "T", "s", "d", [], i⟩

/-- Seven tag-free projects: a two-page listing. -/
def db7 : InfoDb :=
  ⟨[pageProj 0, pageProj 1, pageProj 2, pageProj 3, pageProj 4, pageProj 5,
    pageProj 6], []⟩

/-- One project: a one-page listing. -/
def db1 : InfoDb := ⟨[pageProj 0], []⟩

/-- One project whose seven tags all contain `"a"`. -/
def dupProj : Project :=
  ⟨1, "T", "s", "d", ["aa", "ab", "ac", "ad", "ae", "af", "ag"], 0⟩

/-- Database for the duplicate-row counterexample. -/
def dupDb : InfoDb := ⟨[dupProj], ["aa", "ab", "ac", "ad", "ae", "af", "ag"]⟩

/-- The empty database. -/
def emptyDb : InfoDb := ⟨[], []⟩

/-- A paginator always reports at least one page. -/
theorem numPages_pos (count : Nat) : 1 ≤ numPages count := by
  rw [numPages]; omega

/-- `get_page` on a page number below 1 clamps to the last page. -/
theorem getPage_clamp_low (count : Nat) (n : Int) (h : n < 1) :
    getPage count n = numPages count := by
  simp [getPage, h]

/-- `get_page` on a page number above `num_pages` clamps to the last page. -/
theorem getPage_clamp_high (count : Nat) (n : Int)
    (h : (numPages count : Int) < n) :
    getPage count n = numPages count := by
  have h1 : ¬ n < 1 := by have := numPages_pos count; omega
  simp [getPage, h1, h]

/-- `get_page 1` always resolves to page 1. -/
theorem getPage_one (count : Nat) : getPage count 1 = 1 := by
  have h0 := numPages_pos count
  have h1 : ¬ ((1 : Int) < 1) := by omega
  have h2 : ¬ ((numPages count : Int) < 1) := by omega
  simp [getPage, h1, h2]

/-- Page resolution never produces the dead `Http404` branch. -/
theorem resolvePageOutcome_eq (count : Nat) (pageStr : String) :
    resolvePageOutcome count pageStr =
      .page (getPage count ((pyInt pageStr).getD 1)) := by
  cases h : pyInt pageStr <;> simp [resolvePageOutcome, h]

/-- Closed form of `projects_view`: the listing always renders. -/
theorem projects_view_ok (db : InfoDb) (s t pageStr : String) :
    projects_view db s t pageStr =
      .ok ⟨((filteredRows db s t).drop
              ((getPage (filteredRows db s t).length ((pyInt pageStr).getD 1) - 1) * 6)).take 6,
           (filteredRows db s t).length,
           getPage (filteredRows db s t).length ((pyInt pageStr).getD 1),
           numPages (filteredRows db s t).length⟩ := by
  simp only [projects_view, resolvePageOutcome_eq]

/-- C2 (amended): `projects_view` always renders a page — a non-numeric
page parameter resolves to page 1, while page numbers below 1 and numeric
page numbers exceeding the total page count resolve to the LAST page
(`Paginator.get_page` clamps instead of raising, so the view's
`except EmptyPage: raise Http404` branch is dead and no NotFound outcome
exists). -/
theorem page_resolution (db : InfoDb) (s t pageStr : String) :
    ∃ r, projects_view db s t pageStr = .ok r
      ∧ (pyInt pageStr = none → r.currentPage = 1)
      ∧ (∀ n : Int, pyInt pageStr = some n →
          n < 1 ∨ (numPages (filteredRows db s t).length : Int) < n →
          r.currentPage = numPages (filteredRows db s t).length) := by
  refine ⟨_, projects_view_ok db s t pageStr, ?_, ?_⟩
  · intro h
    simp [h, getPage_one]
  · rintro n h (hlt | hgt)
    · simp [h, getPage_clamp_low _ _ hlt]
    · simp [h, getPage_clamp_high _ _ hgt]

/-- Counterexample to C2 as stated: on a two-page listing, `page=0` and
`page=-1` resolve to page 2 (the last page), not page 1; and `page=9999`
on a one-page listing renders page 1 instead of yielding NotFound. -/
theorem page_resolution_cex :
    (match projects_view db7 "" "" "0" with
     | .ok r => r.currentPage
     | .notFound => 0) = 2
    ∧ (match projects_view db7 "" "" "-1" with
       | .ok r => r.currentPage
       | .notFound => 0) = 2
    ∧ projects_view db1 "" "" "9999" ≠ .notFound
    ∧ (match projects_view db1 "" "" "9999" with
       | .ok r => r.currentPage
       | .notFound => 0) = 1 := by
  decide

/-- Witness for C2 (amended): a non-numeric page renders page 1. -/
theorem page_resolution_witness :
    ∃ r, projects_view db1 "" "" "abc" = .ok r ∧ r.currentPage = 1 := by
  obtain ⟨r, hok, h1, -⟩ := page_resolution db1 "" "" "abc"
  exact ⟨r, hok, h1 (by decide)⟩

/-- The rows of the combined filters carry no duplicates whenever a search
is present, the tech filter is absent, or the tech filter matched no tag. -/
theorem filteredRows_nodup (db : InfoDb) (s t : String)
    (hnd : db.projects.Nodup)
    (h : t = "" ∨ s ≠ "" ∨ ∀ tag ∈ db.tags, icontains tag t = false) :
    (filteredRows db s t).Nodup := by
  have hbase : (if s ≠ "" then db.projects.filter (searchMatches s)
                else db.projects).Nodup := by
    split
    · exact hnd.filter _
    · exact hnd
  by_cases htt : t = ""
  · subst htt
    by_cases hs : s = "" <;>
      simpa [filteredRows, hs, sortRows_perm _ |>.nodup_iff] using
        (by simpa [hs] using hbase : _)
  · by_cases hs : s = ""
    · have hnone : ∀ tag ∈ db.tags, icontains tag t = false := by
        rcases h with h | h | h
        · exact absurd h htt
        · exact absurd hs h
        · exact h
      have hfalse : db.tags.any (fun tag => icontains tag t) = false := by
        rw [List.any_eq_false]
        intro tag htag
        simp [hnone tag htag]
      simpa [filteredRows, htt, hs, hfalse, sortRows_perm _ |>.nodup_iff] using hnd
    · by_cases hany : db.tags.any (fun tag => icontains tag t) = true
      · have : ((db.projects.filter (searchMatches s)).filter (techMatches t)).Nodup :=
          (hnd.filter _).filter _
        simpa [filteredRows, htt, hs, hany, sortRows_perm _ |>.nodup_iff] using this
      · simpa [filteredRows, htt, hs, hany, sortRows_perm _ |>.nodup_iff] using
          hnd.filter (searchMatches s)

/-- C7 (amended): every rendered page holds at most 6 rows, and
`total_pages = ceil(max(1, N) / 6)` where `N` is the number of rows of the
combined-filter query (`total_projects`), which is duplicate-free — hence
equal to the number of distinct matching projects — whenever a search is
present, the tech filter is absent, or no tag matched the tech filter. -/
theorem page_size_and_total_pages (db : InfoDb) (s t pageStr : String)
    (hnd : db.projects.Nodup) :
    ∃ r, projects_view db s t pageStr = .ok r
      ∧ r.pageItems.length ≤ 6
      ∧ r.totalPages = (max 1 (filteredRows db s t).length + 5) / 6
      ∧ r.totalProjects = (filteredRows db s t).length
      ∧ ((t = "" ∨ s ≠ "" ∨ ∀ tag ∈ db.tags, icontains tag t = false) →
          (filteredRows db s t).Nodup) := by
  refine ⟨_, projects_view_ok db s t pageStr, ?_, rfl, rfl, filteredRows_nodup db s t hnd⟩
  simp [List.length_take]

/-- Counterexample to C7 as stated: with only the tech filter `"a"`, the
single matching project is joined once per matching tag, so the query
counts 7 rows and reports `total_pages = 2` where the claim predicts
`ceil(1/6) = 1`; and on an empty result set `total_pages` is 1 where the
claim predicts `ceil(0/6) = 0`. -/
theorem page_total_pages_cex :
    (match projects_view dupDb "" "a" "1" with
     | .ok r => r.totalPages
     | .notFound => 0) = 2
    ∧ (dupDb.projects.filter (techMatches "a")).length = 1
    ∧ (match projects_view emptyDb "" "" "1" with
       | .ok r => r.totalPages
       | .notFound => 0) = 1 := by
  decide

/-- Witness for C7 (amended) on the two-project database. -/
theorem page_size_and_total_pages_witness :
    ∃ r, projects_view wDb "" "" "1" = .ok r
      ∧ r.pageItems.length ≤ 6 ∧ r.totalPages = 1 := by
  obtain ⟨r, hok, hlen, htp, -, -⟩ := page_size_and_total_pages wDb "" "" "1" (by decide)
  exact ⟨r, hok, hlen, htp.trans (by decide)⟩

/-- The spec's example project: id 42, title `"My Cool App"`. -/
def coolProj : Project := ⟨42, "My Cool App", "s", "d", ["Go"], 5⟩

/-- One-project database for the detail-view witness. -/
def coolDb : InfoDb := ⟨[coolProj], ["Go"]⟩

/-- Related-projects witness: the requested project. -/
def relP : Project := ⟨1, "Alpha Go", "s", "d", ["Go"], 1⟩

/-- Related-projects witness: shares the `Go` tag with `relP`. -/
def relQ : Project := ⟨2, "Beta", "s", "d", ["Go", "ML"], 2⟩

/-- Related-projects witness: shares no tag with `relP`. -/
def relR : Project := ⟨3, "Gamma", "s", "d", ["Rust"], 3⟩

/-- Three-project database for the related-projects witness. -/
def relDb : InfoDb := ⟨[relP, relQ, relR], ["Go", "ML", "Rust"]⟩

/-- C6: for an existing project, a missing slug or a slug differing from
the canonical `slugify(title)` yields a permanent redirect to the
identifier-plus-canonical-slug URL with no detail content; the canonical
slug itself renders the detail page; an identifier resolving to no
project yields NotFound.  (The render case assumes the canonical slug is
non-empty, which the URL surface guarantees: both detail routes only
match non-empty `[-a-zA-Z0-9_]+` slug segments, and `slugify` of any
routable title is non-empty.) -/
theorem detail_resolution (db : InfoDb) (pid : Int) (slug : Option String) :
    (db.projects.find? (fun p => p.id == pid) = none →
      project_detail_view db pid slug = .notFound)
    ∧ (∀ p, db.projects.find? (fun p => p.id == pid) = some p →
        ((slug = none ∨ ∃ s, slug = some s ∧ s ≠ slugify p.title) →
          project_detail_view db pid slug = .redirect pid (slugify p.title))
        ∧ (slugify p.title ≠ "" → slug = some (slugify p.title) →
            project_detail_view db pid slug = .render p (relatedProjects db p))) := by
  constructor
  · intro h
    simp [project_detail_view, h]
  · intro p hp
    constructor
    · rintro (rfl | ⟨s, rfl, hs⟩)
      · simp [project_detail_view, hp]
      · by_cases hse : s = ""
        · subst hse
          simp [project_detail_view, hp]
        · simp [project_detail_view, hp, hs, hse]
    · rintro hne rfl
      simp [project_detail_view, hp, hne]

/-- Witness for C6: the spec's own example — project 42 titled
`"My Cool App"`. -/
theorem detail_resolution_witness :
    project_detail_view coolDb 42 none = .redirect 42 "my-cool-app"
    ∧ project_detail_view coolDb 42 (some "wrong-slug") = .redirect 42 "my-cool-app"
    ∧ project_detail_view coolDb 42 (some "my-cool-app") =
        .render coolProj (relatedProjects coolDb coolProj)
    ∧ project_detail_view coolDb 7 none = .notFound := by
  have h1 := (detail_resolution coolDb 42 none).2 coolProj (by decide)
  have h2 := (detail_resolution coolDb 42 (some "wrong-slug")).2 coolProj (by decide)
  have h3 := (detail_resolution coolDb 42 (some "my-cool-app")).2 coolProj (by decide)
  have h4 := (detail_resolution coolDb 7 none).1 (by decide)
  refine ⟨?_, ?_, ?_, h4⟩
  · have := h1.1 (Or.inl rfl)
    rwa [show slugify coolProj.title = "my-cool-app" from by decide] at this
  · have := h2.1 (Or.inr ⟨"wrong-slug", rfl, by decide⟩)
    rwa [show slugify coolProj.title = "my-cool-app" from by decide] at this
  · exact h3.2 (by decide) (by rw [show slugify coolProj.title = "my-cool-app" from by decide])

/-- Rendering inverts to the related-projects query: if the detail view
rendered `p` with related list `rel`, then `rel` is exactly
`relatedProjects db p`. -/
theorem project_detail_view_render_inv (db : InfoDb) (pid : Int)
    (slug : Option String) (p : Project) (rel : List Project)
    (h : project_detail_view db pid slug = .render p rel) :
    rel = relatedProjects db p := by
  unfold project_detail_view at h
  rcases hf : db.projects.find? (fun q => q.id == pid) with _ | p'
  · rw [hf] at h
    simp at h
  · rw [hf] at h
    rcases slug with _ | s
    · simp at h
    · simp only at h
      by_cases h1 : (s != "" && s != slugify p'.title) = true
      · rw [if_pos h1] at h
        simp at h
      · rw [if_neg h1] at h
        by_cases h2 : s = ""
        · rw [if_pos h2] at h
          simp at h
        · rw [if_neg h2] at h
          simp only [DetailOutcome.render.injEq] at h
          rw [← h.1, ← h.2]

/-- C9: whenever the detail view renders, the related-projects list has
at most 4 entries, each sharing at least one tag with the requested
project, none being the requested project, and none repeated. -/
theorem related_projects_bounds (db : InfoDb) (pid : Int)
    (slug : Option String) (p : Project) (rel : List Project)
    (hnd : db.projects.Nodup)
    (h : project_detail_view db pid slug = .render p rel) :
    rel.length ≤ 4
    ∧ (∀ q ∈ rel, q.id ≠ p.id ∧ q.tags.any (fun tg => p.tags.contains tg) = true)
    ∧ rel.Nodup := by
  rw [project_detail_view_render_inv db pid slug p rel h]
  have hperm := sortRowsBy_perm createdLe
    (db.projects.filter (fun q => q.tags.any (fun tg => p.tags.contains tg) && q.id != p.id))
  refine ⟨?_, ?_, ?_⟩
  · rw [relatedProjects, List.length_take]
    exact min_le_left _ _
  · intro q hq
    have hq' := hperm.mem_iff.mp (List.mem_of_mem_take hq)
    have := (List.mem_filter.mp hq').2
    rw [Bool.and_eq_true] at this
    exact ⟨by simpa using this.2, this.1⟩
  · exact (List.take_sublist _ _).nodup (hperm.nodup_iff.mpr (hnd.filter _))

/-- Witness for C9 on a three-project database (two sharing a tag). -/
theorem related_projects_bounds_witness :
    (relatedProjects relDb relP).length ≤ 4
    ∧ ∀ q ∈ relatedProjects relDb relP,
        q.id ≠ relP.id ∧ q.tags.any (fun tg => relP.tags.contains tg) = true := by
  have h := related_projects_bounds relDb 1 (some "alpha-go") relP
    (relatedProjects relDb relP) (by decide) (by decide)
  exact ⟨h.1, h.2.1⟩

/-- `nameMinErr` appears iff the name is empty or shorter than 2. -/
theorem nameMin_mem_iff (db : List StoredMessage) (now : Int) (n e s m : String) :
    nameMinErr ∈ contactErrors db now n e s m ↔ (n = "" ∨ n.length < 2) := by
  simp +decide [contactErrors, List.mem_append, mem_condList, mem_condList₂]

/-- `nameMaxErr` appears iff the name passed the minimum check but
exceeds 100 characters. -/
theorem nameMax_mem_iff (db : List StoredMessage) (now : Int) (n e s m : String) :
    nameMaxErr ∈ contactErrors db now n e s m ↔
      (¬(n = "" ∨ n.length < 2) ∧ 100 < n.length) := by
  simp +decide [contactErrors, List.mem_append, mem_condList, mem_condList₂]

/-- `emailErr` appears iff the e-mail is empty or fails the regex. -/
theorem email_mem_iff (db : List StoredMessage) (now : Int) (n e s m : String) :
    emailErr ∈ contactErrors db now n e s m ↔
      (e = "" ∨ emailRegexMatch e = false) := by
  simp +decide [contactErrors, List.mem_append, mem_condList, mem_condList₂]

/-- `msgMinErr` appears iff the message is empty or shorter than 10. -/
theorem msgMin_mem_iff (db : List StoredMessage) (now : Int) (n e s m : String) :
    msgMinErr ∈ contactErrors db now n e s m ↔ (m = "" ∨ m.length < 10) := by
  simp +decide [contactErrors, List.mem_append, mem_condList, mem_condList₂]

/-- `msgMaxErr` appears iff the message passed the minimum check but
exceeds 2000 characters. -/
theorem msgMax_mem_iff (db : List StoredMessage) (now : Int) (n e s m : String) :
    msgMaxErr ∈ contactErrors db now n e s m ↔
      (¬(m = "" ∨ m.length < 10) ∧ 2000 < m.length) := by
  simp +decide [contactErrors, List.mem_append, mem_condList, mem_condList₂]

/-- `subjMaxErr` appears iff a non-empty subject exceeds 200 characters. -/
theorem subj_mem_iff (db : List StoredMessage) (now : Int) (n e s m : String) :
    subjMaxErr ∈ contactErrors db now n e s m ↔ (s ≠ "" ∧ 200 < s.length) := by
  simp +decide [contactErrors, List.mem_append, mem_condList, mem_condList₂]

/-- `rateErr` appears iff 3 or more recent messages exist for the e-mail. -/
theorem rate_mem_iff (db : List StoredMessage) (now : Int) (n e s m : String) :
    rateErr ∈ contactErrors db now n e s m ↔ 3 ≤ recentCount db now e := by
  simp +decide [contactErrors, List.mem_append, mem_condList, mem_condList₂]

/-- C3: `contact_view` evaluates every validation rule in one pass — each
violated rule contributes its own error to the list, none is masked by an
earlier failure — and a non-empty error list means nothing is persisted. -/
theorem contact_validation_one_pass (db : List StoredMessage) (now : Int)
    (name email subject message : String) :
    ((name.length < 2 ∨ 100 < name.length) ↔
      (nameMinErr ∈ contactErrors db now name email subject message ∨
       nameMaxErr ∈ contactErrors db now name email subject message))
    ∧ ((email = "" ∨ emailRegexMatch email = false) ↔
        emailErr ∈ contactErrors db now name email subject message)
    ∧ ((message.length < 10 ∨ 2000 < message.length) ↔
        (msgMinErr ∈ contactErrors db now name email subject message ∨
         msgMaxErr ∈ contactErrors db now name email subject message))
    ∧ ((subject ≠ "" ∧ 200 < subject.length) ↔
        subjMaxErr ∈ contactErrors db now name email subject message)
    ∧ (3 ≤ recentCount db now email ↔
        rateErr ∈ contactErrors db now name email subject message)
    ∧ (contactErrors db now name email subject message ≠ [] →
        contactSubmit db now name email subject message =
          .error (contactErrors db now name email subject message)) := by
  have hlen0 : name = "" → name.length = 0 := fun h => by rw [h]; rfl
  have hlen0m : message = "" → message.length = 0 := fun h => by rw [h]; rfl
  refine ⟨?_, (email_mem_iff db now name email subject message).symm, ?_,
    (subj_mem_iff db now name email subject message).symm,
    (rate_mem_iff db now name email subject message).symm, ?_⟩
  · rw [nameMin_mem_iff, nameMax_mem_iff]
    constructor
    · intro h
      by_cases hc : name = "" ∨ name.length < 2
      · exact Or.inl hc
      · refine Or.inr ⟨hc, ?_⟩
        rcases h with h | h
        · exact absurd (Or.inr h) hc
        · exact h
    · rintro ((h | h) | ⟨-, h⟩)
      · exact Or.inl (by have := hlen0 h; omega)
      · exact Or.inl h
      · exact Or.inr h
  · rw [msgMin_mem_iff, msgMax_mem_iff]
    constructor
    · intro h
      by_cases hc : message = "" ∨ message.length < 10
      · exact Or.inl hc
      · refine Or.inr ⟨hc, ?_⟩
        rcases h with h | h
        · exact absurd (Or.inr h) hc
        · exact h
    · rintro ((h | h) | ⟨-, h⟩)
      · exact Or.inl (by have := hlen0m h; omega)
      · exact Or.inl h
      · exact Or.inr h
  · intro hne
    simp only [contactSubmit]
    rw [if_neg hne]

/-- Witness for C3: a one-character name is reported and blocks
persistence (the spec's own example). -/
theorem contact_validation_one_pass_witness :
    nameMinErr ∈ contactErrors [] 0 "A" "a@b.co" "" "a valid message"
    ∧ contactSubmit [] 0 "A" "a@b.co" "" "a valid message" =
        .error (contactErrors [] 0 "A" "a@b.co" "" "a valid message") := by
  have h := contact_validation_one_pass [] 0 "A" "a@b.co" "" "a valid message"
  exact ⟨by decide, h.2.2.2.2.2 (by decide)⟩

/-- Three same-sender messages inside the hour before time 400. -/
def rmsg (i : Int) : StoredMessage := ⟨"Jo", "jo@ex.com", "S", "M", i, false, false⟩

/-- Rate-limited database: 3 stored messages for `jo@ex.com`. -/
def rateDb : List StoredMessage := [rmsg 100, rmsg 200, rmsg 300]

/-- C4: with 3 or more stored messages for the submitted e-mail in the
trailing hour the submission gains a rate-limit error and cannot persist;
with fewer than 3 the rate limit adds no error. -/
theorem contact_rate_limit (db : List StoredMessage) (now : Int)
    (name email subject message : String) :
    (3 ≤ recentCount db now email →
      rateErr ∈ contactErrors db now name email subject message ∧
      ∀ db', contactSubmit db now name email subject message ≠ .ok db')
    ∧ (recentCount db now email < 3 →
      rateErr ∉ contactErrors db now name email subject message) := by
  constructor
  · intro h
    have hm := (rate_mem_iff db now name email subject message).mpr h
    refine ⟨hm, fun db' hcontra => ?_⟩
    have hne := List.ne_nil_of_mem hm
    simp only [contactSubmit] at hcontra
    rw [if_neg hne] at hcontra
    exact Except.noConfusion hcontra
  · intro h hm
    exact absurd ((rate_mem_iff db now name email subject message).mp hm) (by omega)

/-- Witness for C4: 3 recent messages trigger the error, 0 do not. -/
theorem contact_rate_limit_witness :
    rateErr ∈ contactErrors rateDb 400 "Jo" "jo@ex.com" "" "a valid message"
    ∧ rateErr ∉ contactErrors [] 400 "Jo" "jo@ex.com" "" "a valid message" := by
  have h1 := (contact_rate_limit rateDb 400 "Jo" "jo@ex.com" "" "a valid message").1 (by decide)
  have h2 := (contact_rate_limit [] 400 "Jo" "jo@ex.com" "" "a valid message").2 (by decide)
  exact ⟨h1.1, h2⟩

/-- C10: every successful submission persists exactly one new row whose
subject is the sanitized submitted subject, or `"Contact from " ++ name`
when that subject is empty — and is in either case non-empty. -/
theorem contact_subject_fallback (db : List StoredMessage) (now : Int)
    (name email subject message : String) (db' : List StoredMessage)
    (h : contactSubmit db now name email subject message = .ok db') :
    db' = db ++ [mkContactMessage name email subject message now]
    ∧ (mkContactMessage name email subject message now).subject =
        (if subject = "" then "Contact from " ++ name else subject)
    ∧ (mkContactMessage name email subject message now).subject ≠ "" := by
  refine ⟨?_, rfl, ?_⟩
  · simp only [contactSubmit] at h
    by_cases he : contactErrors db now name email subject message = []
    · rw [if_pos he] at h
      exact (Except.ok.inj h).symm
    · rw [if_neg he] at h
      exact absurd h (by simp)
  · by_cases hs : subject = ""
    · subst hs
      show (if ("" : String) = "" then "Contact from " ++ name else "") ≠ ""
      rw [if_pos rfl]
      intro hc
      have hlen := congrArg String.length hc
      rw [String.length_append] at hlen
      have h13 : ("Contact from " : String).length = 13 := by decide
      have h0 : ("" : String).length = 0 := rfl
      omega
    · show (if subject = "" then "Contact from " ++ name else subject) ≠ ""
      rw [if_neg hs]
      exact hs

/-- Witness for C10: an empty subject is stored as `"Contact from Jo"`. -/
theorem contact_subject_fallback_witness :
    (mkContactMessage "Jo" "jo@ex.com" "" "a valid message" 0).subject =
      "Contact from Jo"
    ∧ (mkContactMessage "Jo" "jo@ex.com" "" "a valid message" 0).subject ≠ "" := by
  have h := contact_subject_fallback [] 0 "Jo" "jo@ex.com" "" "a valid message"
    ([] ++ [mkContactMessage "Jo" "jo@ex.com" "" "a valid message" 0]) (by rfl)
  exact ⟨h.2.1.trans (by decide), h.2.2⟩

/-- C8: notification dispatch can never affect persistence.  The enhanced
handler (`ContactView.post`) leaves the stored table untouched whatever
the e-mail send outcome — a send failure can neither roll back nor
prevent a stored message; the basic handler (`contact_view`) performs no
notification dispatch, and whenever its table changed the caller was
reported success. -/
theorem notification_never_blocks_persistence (db : List StoredMessage)
    (cacheCount : Nat) (now : Int) (name email subject message : String) :
    (∀ ok : Bool,
      (contactViewPost db cacheCount name email subject message ok).stored = db)
    ∧ ((contact_view_post db now name email subject message).2 ≠ db →
        (contact_view_post db now name email subject message).1 = .success) := by
  constructor
  · intro ok
    simp only [contactViewPost]
    split
    · rfl
    · split <;> rfl
  · intro hne
    rcases hcs : contactSubmit db now name email subject message with errs | db'
    · rw [contact_view_post, hcs] at hne
      exact absurd rfl hne
    · rw [contact_view_post, hcs]

/-- Witness for C8: a failed send leaves the table empty (nothing was
stored to lose), and a basic-flow submission that stored a row reported
success. -/
theorem notification_never_blocks_persistence_witness :
    (contactViewPost [] 0 "Jo" "jo@ex.com" "Hello" "a valid message" false).stored =
      ([] : List StoredMessage)
    ∧ (contact_view_post [] 0 "Jo" "jo@ex.com" "Hello" "a valid message").1 =
        .success := by
  have h := notification_never_blocks_persistence [] 0 0 "Jo" "jo@ex.com" "Hello"
    "a valid message"
  exact ⟨h.1 false, h.2 (by decide)⟩
